import Mathlib

/-
  Verification of the EIP-712 multi-signature coordination engine
  (noro-dex/eip712standard) against its natural-language specification.

  The development shallowly embeds the TypeScript sources:
  - src/strategies/MultiSignStrategy.ts (threshold verification)
  - src/strategies/SingleSignStrategy.ts (single-signature verification)
  - src/utils/verification.ts (shared recovery helpers)
  - src/walletexten/mixwallet.ts (MultiSignWalletManager)
  - src/walletexten/signing.ts (WagmiMultiSignStrategy)
  - the useMultiSignWallet React hook (wallet-hook coordinator variant)
  - src/core/DomainConfig.ts (DomainConfig and NonceManager)
  - src/core/MessageFactory.ts (typed message builder and validation)

  Conventions of the embedding:
  - JavaScript numbers / bigints that hold integers are modelled as Int.
  - A call into ethers.verifyTypedData is an external cryptographic
    primitive; it is modelled as an oracle parameter of type
    SignableMessage -> String -> Option String, where none models a
    thrown recovery error (malformed signature and the like).
  - A TypeScript method that can throw is modelled with Except; a method
    whose body catches every exception is modelled as a total function.
  - Wall-clock reads (Date.now()) are passed in explicitly as Int
    parameters, so stateful time-dependent code becomes explicit state
    passing.
  - Object identity for the DomainConfig descriptor is modelled with a
    small explicit heap (a list of cells addressed by index), because the
    distinction between in-place mutation and rebuilding is an identity
    property.
-/

set_option autoImplicit false
set_option linter.unusedVariables false

/-- EIP-712 domain data, from interfaces/SignableMessage.ts. -/
structure EIP712Domain where
  name : String
  version : String
  chainId : Int
  verifyingContract : String
deriving DecidableEq, Repr

/-- A field value inside the EIP-712 message map. The source stores either
strings or native numbers in the `Record<string, unknown>`; the inductive
keeps both alternatives so that "serialized as a decimal string, never as
a native number" is a non-trivial statement. -/
inductive FieldValue where
  | vstr (s : String)
  | vnum (n : Int)
deriving DecidableEq, Repr

/-- SignableMessage from interfaces/SignableMessage.ts: domain, type
schema, primary type name and the field map (modelled as an association
list in insertion order). -/
structure SignableMessage where
  domain : EIP712Domain
  types : List (String × List (String × String))
  primaryType : String
  message : List (String × FieldValue)
deriving DecidableEq, Repr

/-- Oracle type for ethers.verifyTypedData: recovers a signer address
from a message and a signature hex string; none models a thrown
recovery error. -/
def Recover : Type := SignableMessage → String → Option String

/-- Model of String.prototype.toLowerCase as used for case-insensitive
address comparison: maps Char.toLower over the characters (the ASCII
behaviour is all that hex addresses exercise). -/
def lowercase (s : String) : String := ⟨s.data.map Char.toLower⟩

/-- MultiSignConfig from interfaces/SignerStrategy.ts: a threshold and
the configured expected-signer list. -/
structure MultiSignConfig where
  threshold : Int
  signers : List String
deriving DecidableEq, Repr

/-- The SignatureResult value as consumed by
MultiSignStrategy.verifySignature. The method receives the
SingleSignature/SignatureAggregate union; `signatures = none` models an
input on which the `signatures` property is absent (a SingleSignature),
`some sigs` models a SignatureAggregate. -/
structure SignatureResultInput where
  signatures : Option (List String)
  signers : List String
  threshold : Int
  message : SignableMessage

/-- MultiSignStrategy.verifyIndividualSignatures
(src/strategies/MultiSignStrategy.ts lines 132-151): walks the
signatures by index, recovers each signer, and counts the pairs whose
recovered address equals the claimed address case-insensitively. A
recovery failure (oracle none) is caught and the loop continues; an
index beyond the claimed-signer list makes `signers[i]` undefined, so
`undefined.toLowerCase()` throws inside the same per-pair try/catch and
the pair likewise does not count. -/
def verifyIndividualSignatures (recover : Recover) (msg : SignableMessage) :
    List String → List String → Nat
  | [], _ => 0
  | _ :: _, [] => 0
  | sig :: sigs, claimed :: rest =>
      (match recover msg sig with
        | some a => if lowercase a = lowercase claimed then 1 else 0
        | none => 0) + verifyIndividualSignatures recover msg sigs rest

/-- MultiSignStrategy.verifySignature
(src/strategies/MultiSignStrategy.ts lines 75-96): returns false when
the signatures property is absent or the list is empty, false when
`signatures.length < threshold`, and otherwise compares the count of
individually valid signatures against the threshold. The `config`
parameter models the strategy's `this.config` field; the method body
never consults it. The whole body is wrapped in try/catch returning
false, so the function is total. -/
def MultiSignStrategy.verifySignature (config : MultiSignConfig)
    (recover : Recover) (input : SignatureResultInput) : Bool :=
  match input.signatures with
  | none => false
  | some sigs =>
    if sigs.length = 0 then false
    else if (sigs.length : Int) < input.threshold then false
    else decide ((verifyIndividualSignatures recover input.message sigs input.signers : Int) ≥ input.threshold)

/-- Spec-side definition (from the claim's words): the number of
index-aligned (signature, claimed signer) pairs whose recovered address
equals the claimed address case-insensitively. -/
def specValidCount (recover : Recover) (msg : SignableMessage)
    (sigs claimedSigners : List String) : Nat :=
  (sigs.zip claimedSigners).countP fun p =>
    match recover msg p.1 with
    | some a => decide (lowercase a = lowercase p.2)
    | none => false

/-- Spec-side definition (from the spec's words for the aggregate
"satisfied" rule): pairs count only when, in addition, the claimed
signer is a member of the configured expected-signer set. -/
def specValidCountWithMembership (config : MultiSignConfig)
    (recover : Recover) (msg : SignableMessage)
    (sigs claimedSigners : List String) : Nat :=
  (sigs.zip claimedSigners).countP fun p =>
    (match recover msg p.1 with
      | some a => decide (lowercase a = lowercase p.2)
      | none => false)
    && config.signers.contains p.2

/-- SingleSignature record from interfaces/SignerStrategy.ts. -/
structure SingleSignature where
  signature : String
  signer : String
  message : SignableMessage

/-- SingleSignStrategy.verifySignature
(src/strategies/SingleSignStrategy.ts lines 49-61) restricted to
SignatureRecord inputs (on which the `signatures` guard of line 50 is
skipped because the property is absent): recovers the signer from the
record's message and signature and compares case-insensitively with the
recorded signer; the surrounding try/catch returns false on any
recovery failure, so the function is total. -/
def SingleSignStrategy.verifySignature (recover : Recover)
    (record : SingleSignature) : Bool :=
  match recover record.message record.signature with
  | some a => decide (lowercase a = lowercase record.signer)
  | none => false

/-- A connected wallet as seen by the coordinators: an id, the outcome
of getAddress (error = thrown, ok none = null address) and the outcome
of signTypedData for a given message (error = thrown). -/
structure WalletSim where
  id : String
  getAddress : Except String (Option String)
  signTypedData : SignableMessage → Except String String

/-- One collected signature entry (walletId, address, signature). -/
structure CollectedSig where
  walletId : String
  address : String
  signature : String
deriving DecidableEq, Repr

/-- The per-wallet outcome of one iteration of the useMultiSignWallet
collectSignatures loop: a success entry, or the recorded
(walletId, error message) pair. A null address records the error
"No address available" exactly as in the hook. -/
def walletOutcome (msg : SignableMessage) (w : WalletSim) :
    Except (String × String) CollectedSig :=
  match w.getAddress with
  | .error m => .error (w.id, m)
  | .ok none => .error (w.id, "No address available")
  | .ok (some a) =>
    match w.signTypedData msg with
    | .error m => .error (w.id, m)
    | .ok s => .ok ⟨w.id, a, s⟩

/-- Boolean success test on an Except value. -/
def exceptOk {ε α : Type} : Except ε α → Bool
  | .ok _ => true
  | .error _ => false

/-- The error carried by an Except value, if any. -/
def outcomeErr {ε α : Type} : Except ε α → Option ε
  | .ok _ => none
  | .error e => some e

/-- The accumulation loop of useMultiSignWallet.collectSignatures:
returns the successes and the recorded per-wallet failures, both in
wallet-iteration order. -/
def hookLoop (msg : SignableMessage) :
    List WalletSim → List CollectedSig × List (String × String)
  | [] => ([], [])
  | w :: ws =>
    let rest := hookLoop msg ws
    match walletOutcome msg w with
    | .ok entry => (entry :: rest.1, rest.2)
    | .error er => (rest.1, er :: rest.2)

/-- useMultiSignWallet.collectSignatures (the React-hook coordinator
variant): iterates over every connected wallet, catching each wallet's
failure; afterwards, if there is at least one recorded error and no
success, it throws an error summarizing every per-wallet failure,
otherwise it returns the successes. -/
def useMultiSignWallet.collectSignatures (msg : SignableMessage)
    (wallets : List WalletSim) :
    Except (List (String × String)) (List CollectedSig) :=
  let r := hookLoop msg wallets
  if r.2 ≠ [] ∧ r.1 = [] then .error r.2 else .ok r.1

/-- One iteration of MultiSignWalletManager.collectSignatures
(src/walletexten/mixwallet.ts lines 213-234): a thrown getAddress or
signTypedData is caught and only logged, and a null address is silently
skipped, so the iteration either contributes one success entry or
nothing. -/
def managerStep (msg : SignableMessage) (w : WalletSim) :
    Option CollectedSig :=
  match w.getAddress with
  | .error _ => none
  | .ok none => none
  | .ok (some a) =>
    match w.signTypedData msg with
    | .error _ => none
    | .ok s => some ⟨w.id, a, s⟩

/-- MultiSignWalletManager.collectSignatures: the method contains no
throw statement outside the per-wallet try/catch, so it always returns
normally with the subsequence of successes in iteration order. The
Except result type records that the method never produces an error. -/
def MultiSignWalletManager.collectSignatures (msg : SignableMessage)
    (wallets : List WalletSim) :
    Except (List (String × String)) (List CollectedSig) :=
  .ok (wallets.filterMap (managerStep msg))

/-- MultiSignWalletManager.isThresholdMet: connected wallet count
against the configured threshold. -/
def MultiSignWalletManager.isThresholdMet (wallets : List WalletSim)
    (threshold : Int) : Bool :=
  decide ((wallets.length : Int) ≥ threshold)

/-- State of WagmiMultiSignStrategy (src/walletexten/signing.ts): the
connected wallet map (in insertion order) and the threshold. -/
structure WagmiMultiSignState where
  wallets : List WalletSim
  threshold : Int

/-- Errors thrown by WagmiMultiSignStrategy.collectSignatures: the
threshold-not-met error carrying the required and connected counts, or
the abort on the first failing wallet. -/
inductive WagmiCollectError where
  | thresholdNotMet (required connected : Int)
  | walletFailed (walletId : String)
deriving DecidableEq, Repr

/-- WagmiMultiSignStrategy.isThresholdMet. -/
def WagmiMultiSignStrategy.isThresholdMet (st : WagmiMultiSignState) : Bool :=
  decide ((st.wallets.length : Int) ≥ st.threshold)

/-- The wallet loop of WagmiMultiSignStrategy.collectSignatures: unlike
the other two variants, any wallet failure rethrows and aborts the
whole collection; a null address is silently skipped. The second
component is the trace of wallet ids whose getAddress was invoked. -/
def wagmiLoop (msg : SignableMessage) :
    List WalletSim → Except WagmiCollectError (List CollectedSig) × List String
  | [] => (.ok [], [])
  | w :: ws =>
    match w.getAddress with
    | .error _ => (.error (.walletFailed w.id), [w.id])
    | .ok none =>
      let r := wagmiLoop msg ws
      (r.1, w.id :: r.2)
    | .ok (some a) =>
      match w.signTypedData msg with
      | .error _ => (.error (.walletFailed w.id), [w.id])
      | .ok s =>
        let r := wagmiLoop msg ws
        (r.1.map fun tail => ⟨w.id, a, s⟩ :: tail, w.id :: r.2)

/-- WagmiMultiSignStrategy.collectSignatures
(src/walletexten/signing.ts lines 141-177): throws the
threshold-not-met error, carrying the required and connected counts,
before touching any wallet; otherwise runs the wallet loop. The second
component is the trace of invoked wallets. -/
def WagmiMultiSignStrategy.collectSignatures (st : WagmiMultiSignState)
    (msg : SignableMessage) :
    Except WagmiCollectError (List CollectedSig) × List String :=
  if WagmiMultiSignStrategy.isThresholdMet st then wagmiLoop msg st.wallets
  else (.error (.thresholdNotMet st.threshold st.wallets.length), [])

/-- NonceState from src/core/DomainConfig.ts (NonceManager): current
counter, the used set (as a duplicate-free key list) and the
last-updated wall-clock timestamp in milliseconds. -/
structure NonceState where
  current : Int
  used : List String
  lastUpdated : Int
deriving DecidableEq, Repr

/-- A NonceManager instance: its state plus the configured max age. -/
structure NonceManager where
  nonceState : NonceState
  maxAge : Int
deriving DecidableEq, Repr

/-- Key under which a nonce is stored in the used set
(nonce.toString()). -/
def nonceToKey (n : Int) : String := toString n

/-- Set.add semantics on the key list. -/
def setAdd (s : List String) (x : String) : List String :=
  if s.contains x then s else x :: s

/-- NonceManager.cleanup: when the wall-clock time since the last
update exceeds maxAge, the used set is cleared wholesale and the age
timer restarts. -/
def NonceManager.cleanup (now : Int) (m : NonceManager) : NonceManager :=
  if now - m.nonceState.lastUpdated > m.maxAge then
    { m with nonceState := { m.nonceState with used := [], lastUpdated := now } }
  else m

/-- NonceManager.markNonceUsed: cleanup, then add the nonce key to the
used set. The lastUpdated timestamp is not refreshed here unless
cleanup itself reset it. -/
def NonceManager.markNonceUsed (now n : Int) (m : NonceManager) : NonceManager :=
  let m1 := m.cleanup now
  { m1 with nonceState := { m1.nonceState with used := setAdd m1.nonceState.used (nonceToKey n) } }

/-- NonceManager.isNonceUsed: cleanup, then membership in the used
set. Returns the answer together with the possibly-reset state. -/
def NonceManager.isNonceUsed (now n : Int) (m : NonceManager) :
    Bool × NonceManager :=
  let m1 := m.cleanup now
  (m1.nonceState.used.contains (nonceToKey n), m1)

/-- NonceManager.isNonceValid: the sliding back-window
`nonce >= current - 1000`. -/
def NonceManager.isNonceValid (n : Int) (m : NonceManager) : Bool :=
  decide (n ≥ m.nonceState.current - 1000)

/-- NonceManager.validateNonce: cleanup, then not-used and
within-window. The cleanup inside the nested isNonceUsed call is run on
the already-cleaned state. -/
def NonceManager.validateNonce (now n : Int) (m : NonceManager) :
    Bool × NonceManager :=
  let m1 := m.cleanup now
  let r := m1.isNonceUsed now n
  ((!r.1) && r.2.isNonceValid n, r.2)

/-- A DomainConfig object: the private readonly reference to its domain
cell. The reference itself is never reassigned. -/
structure DomainConfigObj where
  domainRef : Nat
deriving DecidableEq, Repr

/-- The heap of domain descriptor cells; addresses are list indices. -/
structure DomainHeap where
  cells : List EIP712Domain
deriving DecidableEq, Repr

/-- Dereference a domain cell. -/
def DomainHeap.read (h : DomainHeap) (r : Nat) : EIP712Domain :=
  h.cells.getD r { name := "", version := "", chainId := 0, verifyingContract := "" }

/-- The DomainConfig constructor: allocates a fresh cell holding the
four domain fields and returns the reference to it. -/
def DomainConfig.construct (h : DomainHeap) (name version : String)
    (chainId : Int) (verifyingContract : String) :
    DomainConfigObj × DomainHeap :=
  (⟨h.cells.length⟩, ⟨h.cells ++ [⟨name, version, chainId, verifyingContract⟩]⟩)

/-- DomainConfig.updateChainId (src/core/DomainConfig.ts lines 34-36):
writes the new chainId through the existing reference —
`(this.domain as any).chainId = chainId` — without allocating a new
descriptor. -/
def DomainConfig.updateChainId (cfg : DomainConfigObj) (h : DomainHeap)
    (chainId : Int) : DomainHeap :=
  ⟨h.cells.set cfg.domainRef { h.read cfg.domainRef with chainId := chainId }⟩

/-- DomainConfig.updateVerifyingContract (lines 41-43): same in-place
write for the verifyingContract field. -/
def DomainConfig.updateVerifyingContract (cfg : DomainConfigObj)
    (h : DomainHeap) (verifyingContract : String) : DomainHeap :=
  ⟨h.cells.set cfg.domainRef { h.read cfg.domainRef with verifyingContract := verifyingContract }⟩

/-- DomainConfig.getDomain: returns a copy of the stored domain
(a spread copy of this.domain); the heap is untouched. -/
def DomainConfig.getDomain (cfg : DomainConfigObj) (h : DomainHeap) : EIP712Domain :=
  h.read cfg.domainRef

/-- Structural model of String.prototype.startsWith. -/
def strStartsWith (s p : String) : Bool := p.data.isPrefixOf s.data

/-- The pure well-formedness test of DomainConfig.validate: the typeof
checks always pass in the typed model, leaving chainId positive,
address length 42 and the 0x marker at the start. -/
def domainWellFormed (d : EIP712Domain) : Bool :=
  decide (d.chainId > 0) && decide (d.verifyingContract.length = 42) &&
    strStartsWith d.verifyingContract "0x"

/-- DomainConfig.validate on a config object. -/
def DomainConfig.validate (cfg : DomainConfigObj) (h : DomainHeap) : Bool :=
  domainWellFormed (h.read cfg.domainRef)

/-- SignableOperation from src/types/operations.ts as consumed by the
MessageFactory: the four operation kinds with their fields; bigint
fields are Int. -/
inductive SignableOperation where
  | deposit (nonce deadline : Int) (owner : String) (amount : Int) (token : String)
  | withdrawal (nonce deadline : Int) (owner : String) (amount : Int) (token toAddr : String)
  | orderSubmission (nonce deadline : Int) (owner side : String) (amount price : Int)
      (token orderType : String)
  | orderCancellation (nonce deadline : Int) (owner orderId : String)
deriving DecidableEq, Repr

/-- The operation discriminant string. -/
def SignableOperation.opName : SignableOperation → String
  | .deposit .. => "Deposit"
  | .withdrawal .. => "Withdrawal"
  | .orderSubmission .. => "OrderSubmission"
  | .orderCancellation .. => "OrderCancellation"

/-- The nonce field of an operation. -/
def SignableOperation.nonce : SignableOperation → Int
  | .deposit n _ _ _ _ => n
  | .withdrawal n _ _ _ _ _ => n
  | .orderSubmission n _ _ _ _ _ _ _ => n
  | .orderCancellation n _ _ _ => n

/-- The deadline field of an operation. -/
def SignableOperation.deadline : SignableOperation → Int
  | .deposit _ d _ _ _ => d
  | .withdrawal _ d _ _ _ _ => d
  | .orderSubmission _ d _ _ _ _ _ _ => d
  | .orderCancellation _ d _ _ => d

/-- MessageFactory.serializeOperation
(src/core/MessageFactory.ts lines 205-240): builds the message field
map in source insertion order; every bigint field goes through
`.toString()`, modelled as the decimal rendering of the Int. -/
def MessageFactory.serializeOperation : SignableOperation → List (String × FieldValue)
  | .deposit nonce deadline owner amount token =>
      [("operation", .vstr "Deposit"), ("nonce", .vstr (toString nonce)),
       ("deadline", .vstr (toString deadline)), ("owner", .vstr owner),
       ("amount", .vstr (toString amount)), ("token", .vstr token)]
  | .withdrawal nonce deadline owner amount token toAddr =>
      [("operation", .vstr "Withdrawal"), ("nonce", .vstr (toString nonce)),
       ("deadline", .vstr (toString deadline)), ("owner", .vstr owner),
       ("amount", .vstr (toString amount)), ("token", .vstr token),
       ("to", .vstr toAddr)]
  | .orderSubmission nonce deadline owner side amount price token orderType =>
      [("operation", .vstr "OrderSubmission"), ("nonce", .vstr (toString nonce)),
       ("deadline", .vstr (toString deadline)), ("owner", .vstr owner),
       ("side", .vstr side), ("amount", .vstr (toString amount)),
       ("price", .vstr (toString price)), ("token", .vstr token),
       ("orderType", .vstr orderType)]
  | .orderCancellation nonce deadline owner orderId =>
      [("operation", .vstr "OrderCancellation"), ("nonce", .vstr (toString nonce)),
       ("deadline", .vstr (toString deadline)), ("owner", .vstr owner),
       ("orderId", .vstr orderId)]

/-- The shared EIP712Domain entry of getTypesForOperation. -/
def baseTypes : List (String × List (String × String)) :=
  [("EIP712Domain",
    [("name", "string"), ("version", "string"), ("chainId", "uint256"),
     ("verifyingContract", "address")])]

/-- MessageFactory.getTypesForOperation (lines 131-200), restricted to
the four known operation kinds (the unknown-kind throw cannot arise on
the closed inductive). -/
def MessageFactory.getTypesForOperation : SignableOperation → List (String × List (String × String))
  | .deposit .. =>
      baseTypes ++
      [("Deposit",
        [("operation", "string"), ("nonce", "uint256"), ("deadline", "uint256"),
         ("owner", "address"), ("amount", "uint256"), ("token", "address")])]
  | .withdrawal .. =>
      baseTypes ++
      [("Withdrawal",
        [("operation", "string"), ("nonce", "uint256"), ("deadline", "uint256"),
         ("owner", "address"), ("amount", "uint256"), ("token", "address"),
         ("to", "address")])]
  | .orderSubmission .. =>
      baseTypes ++
      [("OrderSubmission",
        [("operation", "string"), ("nonce", "uint256"), ("deadline", "uint256"),
         ("owner", "address"), ("side", "string"), ("amount", "uint256"),
         ("price", "uint256"), ("token", "address"), ("orderType", "string")])]
  | .orderCancellation .. =>
      baseTypes ++
      [("OrderCancellation",
        [("operation", "string"), ("nonce", "uint256"), ("deadline", "uint256"),
         ("owner", "address"), ("orderId", "string")])]

/-- MessageFactory.createMessage (lines 22-32). -/
def MessageFactory.createMessage (cfg : DomainConfigObj) (h : DomainHeap)
    (op : SignableOperation) : SignableMessage :=
  { domain := DomainConfig.getDomain cfg h,
    types := MessageFactory.getTypesForOperation op,
    primaryType := op.opName,
    message := MessageFactory.serializeOperation op }

/-- JavaScript truthiness of a field value: the empty string and the
number 0 are falsy. -/
def fieldTruthy : FieldValue → Bool
  | .vstr s => decide (s ≠ "")
  | .vnum n => decide (n ≠ 0)

/-- Accumulating decimal-digit parse over a character list. -/
def digitsToNatAux : List Char → Nat → Option Nat
  | [], acc => some acc
  | c :: cs, acc =>
    if c.isDigit then digitsToNatAux cs (acc * 10 + (c.toNat - 48)) else none

/-- Decimal parse of a string into an Int (structural recursion, so the
kernel can evaluate it on concrete inputs). -/
def decToInt? (s : String) : Option Int :=
  match s.data with
  | [] => none
  | c :: cs =>
    if c = '-' then
      match cs with
      | [] => none
      | _ => (digitsToNatAux cs 0).map fun n => -(n : Int)
    else (digitsToNatAux (c :: cs) 0).map fun n => (n : Int)

/-- The BigInt(...) conversion applied by validateMessage to the nonce
and deadline fields: decimal string parse (none models the thrown
SyntaxError on a non-numeric string), identity on an integer number. -/
def jsBigInt : FieldValue → Option Int
  | .vstr s => decToInt? s
  | .vnum n => some n

/-- The nonce block of MessageFactory.validateMessage (lines 259-264):
skipped when the field is absent or falsy; a failed BigInt conversion
throws before the nonce manager is consulted; otherwise the manager's
validateNonce runs (with its state effects) and a failure contributes
the error string. -/
def nonceCheck (nowMs : Int) (m : NonceManager) (msg : SignableMessage) :
    Except String (List String × NonceManager) :=
  match msg.message.lookup "nonce" with
  | some v =>
    if fieldTruthy v then
      match jsBigInt v with
      | none => .error "Cannot convert to a BigInt"
      | some n =>
        let r := m.validateNonce nowMs n
        .ok ((if r.1 then [] else ["Invalid or used nonce"]), r.2)
    else .ok ([], m)
  | none => .ok ([], m)

/-- The deadline block of MessageFactory.validateMessage (lines
267-273): skipped when absent or falsy; a failed conversion throws;
otherwise a deadline at or before the current time (in seconds)
contributes the error string. -/
def deadlineCheck (nowSec : Int) (msg : SignableMessage) :
    Except String (List String) :=
  match msg.message.lookup "deadline" with
  | some v =>
    if fieldTruthy v then
      match jsBigInt v with
      | none => .error "Cannot convert to a BigInt"
      | some d => .ok (if d ≤ nowSec then ["Message deadline has passed"] else [])
    else .ok []
  | none => .ok []

/-- MessageFactory.validateMessage (lines 245-279). In the typed model
the `types` and `message` objects are always truthy, so the structure
check can only fire on an empty primaryType string. The Except layer
models the possible BigInt throw; the second component is the nonce
manager state after the call. -/
def MessageFactory.validateMessage (cfg : DomainConfigObj) (h : DomainHeap)
    (nowMs nowSec : Int) (m : NonceManager) (msg : SignableMessage) :
    Except String (Bool × List String) × NonceManager :=
  let e1 : List String :=
    if DomainConfig.validate cfg h then [] else ["Invalid domain configuration"]
  let e2 := e1 ++ (if msg.primaryType = "" then ["Invalid message structure"] else [])
  match nonceCheck nowMs m msg with
  | .error err => (.error err, m)
  | .ok (ne, m') =>
    match deadlineCheck nowSec msg with
    | .error err => (.error err, m')
    | .ok de =>
      let errors := e2 ++ ne ++ de
      (.ok (errors.isEmpty, errors), m')

/-- The keys of the integer-valued fields named by the spec. -/
def integerFields : List String := ["nonce", "deadline", "amount", "price"]

/- Concrete instances used by witnesses and counterexamples. -/

/-- A small concrete domain. -/
def d0 : EIP712Domain :=
  { name := "EngineDex", version := "1.0", chainId := 1, verifyingContract := "0xc" }

/-- A small concrete message. -/
def msg0 : SignableMessage :=
  { domain := d0, types := [], primaryType := "Deposit", message := [] }

/-- A concrete recovery oracle: the signature "sigA" recovers to the
address "0xab" (lowercase) on every message; everything else fails. -/
def recover0 : Recover := fun _ s => if s = "sigA" then some "0xab" else none

/-- A recovery oracle that always fails. -/
def recoverNone : Recover := fun _ _ => none

/-- A concrete multi-sign configuration whose expected-signer set
contains the recovered address. -/
def cfg0 : MultiSignConfig := { threshold := 1, signers := ["0xab"] }

/-- A concrete multi-sign configuration whose expected-signer set does
NOT contain the claimed signer 0xAB. -/
def cfgOutside : MultiSignConfig := { threshold := 1, signers := ["0xcd"] }

/-- A concrete aggregate whose single claimed signer 0xAB lies outside
cfgOutside's expected-signer set, yet recovers correctly. -/
def aggOutside : SignatureResultInput :=
  { signatures := some ["sigA"], signers := ["0xAB"], threshold := 1, message := msg0 }

/-- A signature record with an unrecoverable signature. -/
def recordBad : SingleSignature :=
  { signature := "bad", signer := "0xab", message := msg0 }

/-- A signature record whose signature recovers to the recorded signer
up to case. -/
def recordGood : SingleSignature :=
  { signature := "sigA", signer := "0xAB", message := msg0 }

/-- A wallet whose getAddress and signTypedData both throw. -/
def failingWallet : WalletSim :=
  { id := "w1", getAddress := .error "boom", signTypedData := fun _ => .error "boom" }

/-- A wallet that signs successfully. -/
def okWallet : WalletSim :=
  { id := "w2", getAddress := .ok (some "0xab"), signTypedData := fun _ => .ok "sigA" }

/-- A nonce manager whose state is stale: nonce 5 is marked used, but
the last update lies further in the past than maxAge. -/
def staleNonceManager : NonceManager :=
  { nonceState := { current := 0, used := [nonceToKey 5], lastUpdated := 0 }, maxAge := 10 }

/-- A message carrying the nonce field "5". -/
def msgNonce : SignableMessage :=
  { domain := d0, types := [], primaryType := "Deposit",
    message := [("nonce", FieldValue.vstr "5")] }

/-- A heap holding one domain descriptor cell. -/
def hDom : DomainHeap := ⟨[d0]⟩

/-- The DomainConfig object referring to that cell. -/
def cfgDom : DomainConfigObj := ⟨0⟩

/- Helper lemmas. -/

/-- The source's per-index counting loop equals the count over the
zipped (signature, claimed signer) pairs. -/
theorem verifyIndividualSignatures_eq_specValidCount (recover : Recover)
    (msg : SignableMessage) :
    ∀ sigs claimedSigners : List String,
      verifyIndividualSignatures recover msg sigs claimedSigners =
        specValidCount recover msg sigs claimedSigners := by
  intro sigs
  induction sigs with
  | nil =>
    intro cs
    simp [verifyIndividualSignatures, specValidCount]
  | cons s ss ih =>
    intro cs
    cases cs with
    | nil =>
      simp [verifyIndividualSignatures, specValidCount]
    | cons c cs' =>
      simp only [verifyIndividualSignatures, specValidCount, List.zip_cons_cons,
        List.countP_cons, ih cs']
      cases hrec : recover msg s with
      | none => simp [specValidCount, Nat.add_comm]
      | some a =>
        by_cases h : lowercase a = lowercase c <;>
          simp [specValidCount, h, Nat.add_comm]

/-- C1: for every SignatureAggregate (whose data-model invariant makes
the threshold a positive integer), verifySignature returns false
immediately when signatures.length < threshold; otherwise it returns
true if and only if the number of index-aligned (signature, claimed
signer) pairs whose recovered address equals the claimed address
case-insensitively is >= threshold. The count quantifies over an
arbitrary recovery oracle, so a recovery failure on a single pair
merely removes that pair from the count and never aborts the whole
verification. -/
theorem C1_multi_verify_threshold_rule (config : MultiSignConfig)
    (recover : Recover) (msg : SignableMessage)
    (sigs claimedSigners : List String) (thr : Int) (hthr : 1 ≤ thr) :
    (((sigs.length : Int) < thr →
        MultiSignStrategy.verifySignature config recover
          ⟨some sigs, claimedSigners, thr, msg⟩ = false) ∧
     (thr ≤ (sigs.length : Int) →
        (MultiSignStrategy.verifySignature config recover
            ⟨some sigs, claimedSigners, thr, msg⟩ = true ↔
          (specValidCount recover msg sigs claimedSigners : Int) ≥ thr))) := by
  constructor
  · intro hlt
    unfold MultiSignStrategy.verifySignature
    by_cases hnil : sigs.length = 0
    · simp [hnil]
    · simp [hnil, hlt]
  · intro hge
    have hnil : ¬ sigs.length = 0 := by
      intro h0
      rw [h0] at hge
      omega
    have hnotlt : ¬ ((sigs.length : Int) < thr) := by omega
    unfold MultiSignStrategy.verifySignature
    simp [hnil, hnotlt,
      verifyIndividualSignatures_eq_specValidCount recover msg sigs claimedSigners]

/-- Witness for C1: one correct signature against threshold 1, with the
claimed address differing from the recovered one only in case. -/
theorem C1_witness :
    MultiSignStrategy.verifySignature cfg0 recover0
      ⟨some ["sigA"], ["0xAB"], 1, msg0⟩ = true :=
  ((C1_multi_verify_threshold_rule cfg0 recover0 msg0 ["sigA"] ["0xAB"] 1
      (by decide)).2 (by decide)).mpr (by decide)

/-- C2 counterexample: the claimed signer "0xAB" is not a member of the
configured expected-signer set (cfgOutside.signers = ["0xcd"]), yet the
pair still counts: the code's per-pair count is 1, the spec's
membership-filtered count is 0, and verifySignature accepts the
aggregate. The expected-signer set is never consulted. -/
theorem C2_counterexample :
    cfgOutside.signers.contains "0xAB" = false ∧
    verifyIndividualSignatures recover0 msg0 ["sigA"] ["0xAB"] = 1 ∧
    specValidCountWithMembership cfgOutside recover0 msg0 ["sigA"] ["0xAB"] = 0 ∧
    MultiSignStrategy.verifySignature cfgOutside recover0 aggOutside = true := by
  refine ⟨by decide, by decide, by decide, by decide⟩

/-- C2 amended: a pair is counted toward the threshold exactly when the
recovered address equals the claimed address case-insensitively;
membership of the claimed signer in MultiSignConfig.signers is never
required, and the verification outcome is independent of the configured
expected-signer set. -/
theorem C2_amended_no_membership_check (c c' : MultiSignConfig)
    (recover : Recover) (input : SignatureResultInput) :
    MultiSignStrategy.verifySignature c recover input =
      MultiSignStrategy.verifySignature c' recover input ∧
    (∀ msg sigs claimedSigners,
      verifyIndividualSignatures recover msg sigs claimedSigners =
        specValidCount recover msg sigs claimedSigners) :=
  ⟨rfl, fun msg sigs claimedSigners =>
    verifyIndividualSignatures_eq_specValidCount recover msg sigs claimedSigners⟩

/-- C5: single-sign verifySignature recomputes recovery from the
record's message and signature and compares the result to the recorded
signer address case-insensitively; on any recovery failure it returns
false rather than throwing (the embedding is a total function because
the method's try/catch swallows every error). -/
theorem C5_single_verify_recovery (recover : Recover) (record : SingleSignature) :
    (recover record.message record.signature = none →
       SingleSignStrategy.verifySignature recover record = false) ∧
    (∀ a, recover record.message record.signature = some a →
       (SingleSignStrategy.verifySignature recover record = true ↔
          lowercase a = lowercase record.signer)) := by
  constructor
  · intro h
    unfold SingleSignStrategy.verifySignature
    rw [h]
  · intro a h
    unfold SingleSignStrategy.verifySignature
    rw [h]
    simp

/-- Witness for C5: a failed recovery yields false; a recovery matching
the recorded signer up to case yields true. -/
theorem C5_witness :
    SingleSignStrategy.verifySignature recoverNone recordBad = false ∧
    SingleSignStrategy.verifySignature recover0 recordGood = true :=
  ⟨(C5_single_verify_recovery recoverNone recordBad).1 rfl,
   ((C5_single_verify_recovery recover0 recordGood).2 "0xab" rfl).mpr (by decide)⟩

/-- C10: multi-sign verifySignature is total (the try/catch returns
false on any internal error) and returns false whenever the signatures
property is absent (a SingleSignature input) or the signatures list is
empty, for every threshold value — including threshold 0, where the
count-based rule alone would yield true. -/
theorem C10_multi_verify_empty_or_missing (config : MultiSignConfig)
    (recover : Recover) (msg : SignableMessage)
    (claimedSigners : List String) (thr : Int) :
    MultiSignStrategy.verifySignature config recover
      ⟨none, claimedSigners, thr, msg⟩ = false ∧
    MultiSignStrategy.verifySignature config recover
      ⟨some [], claimedSigners, thr, msg⟩ = false :=
  ⟨rfl, rfl⟩

/-- Cleanup is the identity on a fresh state. -/
theorem cleanup_of_fresh (m : NonceManager) (now : Int)
    (h : now - m.nonceState.lastUpdated ≤ m.maxAge) : m.cleanup now = m := by
  unfold NonceManager.cleanup
  rw [if_neg]
  omega

/-- Cleanup at a fixed instant is idempotent. -/
theorem cleanup_idem (m : NonceManager) (now : Int) :
    (m.cleanup now).cleanup now = m.cleanup now := by
  by_cases h : now - m.nonceState.lastUpdated > m.maxAge
  · simp only [NonceManager.cleanup, if_pos h]
    split
    · rfl
    · rfl
  · simp only [NonceManager.cleanup, if_neg h]

/-- Cleanup never changes the current counter. -/
theorem cleanup_current (m : NonceManager) (now : Int) :
    (m.cleanup now).nonceState.current = m.nonceState.current := by
  unfold NonceManager.cleanup
  split <;> rfl

/-- Cleanup never changes the maxAge configuration. -/
theorem cleanup_maxAge (m : NonceManager) (now : Int) :
    (m.cleanup now).maxAge = m.maxAge := by
  unfold NonceManager.cleanup
  split <;> rfl

/-- After cleanup at a nonnegative maxAge, the state is fresh at the
same instant. -/
theorem cleanup_fresh_after (m : NonceManager) (now : Int) (h : 0 ≤ m.maxAge) :
    now - (m.cleanup now).nonceState.lastUpdated ≤ (m.cleanup now).maxAge := by
  unfold NonceManager.cleanup
  split
  · simpa using h
  · omega

/-- Set.add puts the key in the set. -/
theorem setAdd_contains (s : List String) (x : String) :
    (setAdd s x).contains x = true := by
  unfold setAdd
  split
  · assumption
  · simp

/-- The state returned by validateNonce is the doubly-cleaned input. -/
theorem validateNonce_snd (m : NonceManager) (now n : Int) :
    (m.validateNonce now n).2 = (m.cleanup now).cleanup now := rfl

/-- The boolean returned by validateNonce, expressed over the cleaned
state. -/
theorem validateNonce_fst (m : NonceManager) (now n : Int) :
    (m.validateNonce now n).1 =
      (!((m.cleanup now).cleanup now).nonceState.used.contains (nonceToKey n) &&
        decide (n ≥ ((m.cleanup now).cleanup now).nonceState.current - 1000)) := rfl

/-- validateNonce leaves a fresh state unchanged. -/
theorem validateNonce_snd_fresh (m : NonceManager) (now n : Int)
    (h : now - m.nonceState.lastUpdated ≤ m.maxAge) :
    (m.validateNonce now n).2 = m := by
  rw [validateNonce_snd, cleanup_of_fresh m now h, cleanup_of_fresh m now h]

/-- validateNonce never changes the current counter. -/
theorem validateNonce_snd_current (m : NonceManager) (now n : Int) :
    (m.validateNonce now n).2.nonceState.current = m.nonceState.current := by
  rw [validateNonce_snd, cleanup_current, cleanup_current]

/-- C8 counterexample: in the stale state, nonce 5 has been marked used
and lies inside the sliding window (5 >= current - 1000), so the claim
demands validate(5) = false for this Nonce Tracker state; but the
cleanup that validateNonce runs first clears the whole used set, and
the call returns true. -/
theorem C8_counterexample :
    staleNonceManager.nonceState.used.contains (nonceToKey 5) = true ∧
    (5 : Int) ≥ staleNonceManager.nonceState.current - 1000 ∧
    (staleNonceManager.validateNonce 11 5).1 = true := by
  refine ⟨by decide, by decide, by decide⟩

/-- C8 amended: provided the state is fresh at validation time (time
since lastUpdated at most maxAge), validate(n) is true iff n is not in
the used set and n >= current - 1000; and immediately after markUsed(n)
— validation at the same instant, with a nonnegative maxAge — validate
returns false, even when markUsed itself triggered the time-boxed
reset. On a stale state the used set is cleared first, so the
unqualified iff of the original claim fails. -/
theorem C8_amended_validate_rule (m : NonceManager) (now n : Int) :
    (now - m.nonceState.lastUpdated ≤ m.maxAge →
      ((m.validateNonce now n).1 = true ↔
        (m.nonceState.used.contains (nonceToKey n) = false ∧
         n ≥ m.nonceState.current - 1000))) ∧
    (0 ≤ m.maxAge →
      ((m.markNonceUsed now n).validateNonce now n).1 = false) := by
  constructor
  · intro hfresh
    rw [validateNonce_fst, cleanup_of_fresh m now hfresh, cleanup_of_fresh m now hfresh]
    simp
  · intro hage
    have hfresh2 : now - ((m.markNonceUsed now n)).nonceState.lastUpdated ≤
        (m.markNonceUsed now n).maxAge := by
      have h1 : (m.markNonceUsed now n).nonceState.lastUpdated =
          (m.cleanup now).nonceState.lastUpdated := rfl
      have h2 : (m.markNonceUsed now n).maxAge = (m.cleanup now).maxAge := rfl
      rw [h1, h2, cleanup_maxAge]
      have := cleanup_fresh_after m now hage
      rw [cleanup_maxAge] at this
      exact this
    rw [validateNonce_fst,
      cleanup_of_fresh _ now hfresh2, cleanup_of_fresh _ now hfresh2]
    have hmem : (m.markNonceUsed now n).nonceState.used.contains (nonceToKey n) = true := by
      unfold NonceManager.markNonceUsed
      exact setAdd_contains _ _
    rw [hmem]
    simp

/-- Witness for C8: on the stale manager observed at a fresh instant
(now = 5), the unused nonce 7 validates true via the iff; and marking
nonce 5 used then validating it at the same instant yields false. -/
theorem C8_amended_witness :
    (staleNonceManager.validateNonce 5 7).1 = true ∧
    ((staleNonceManager.markNonceUsed 11 5).validateNonce 11 5).1 = false :=
  ⟨((C8_amended_validate_rule staleNonceManager 5 7).1 (by decide)).mpr
      ⟨by decide, by decide⟩,
   (C8_amended_validate_rule staleNonceManager 11 5).2 (by decide)⟩

/-- When the nonce manager is fresh, a normally-returning nonceCheck
hands back the unchanged manager state. -/
theorem nonceCheck_snd_fresh (nowMs : Int) (m : NonceManager)
    (msg : SignableMessage)
    (hfresh : nowMs - m.nonceState.lastUpdated ≤ m.maxAge) :
    ∀ ne m', nonceCheck nowMs m msg = .ok (ne, m') → m' = m := by
  intro ne m' hh
  unfold nonceCheck at hh
  split at hh
  · split at hh
    · split at hh
      · cases hh
      · injection hh with h1
        injection h1 with ha hb
        rw [← hb]
        exact validateNonce_snd_fresh m nowMs _ hfresh
    · injection hh with h1
      injection h1 with ha hb
      exact hb.symm
  · injection hh with h1
    injection h1 with ha hb
    exact hb.symm

/-- nonceCheck never changes the current counter of the state it hands
back. -/
theorem nonceCheck_snd_current (nowMs : Int) (m : NonceManager)
    (msg : SignableMessage) :
    ∀ ne m', nonceCheck nowMs m msg = .ok (ne, m') →
      m'.nonceState.current = m.nonceState.current := by
  intro ne m' hh
  unfold nonceCheck at hh
  split at hh
  · split at hh
    · split at hh
      · cases hh
      · injection hh with h1
        injection h1 with ha hb
        rw [← hb]
        exact validateNonce_snd_current m nowMs _
    · injection hh with h1
      injection h1 with ha hb
      rw [← hb]
  · injection hh with h1
    injection h1 with ha hb
    rw [← hb]

/-- C6 counterexample: the Nonce Tracker is stale (11 ms have passed
since lastUpdated = 0, exceeding maxAge = 10), so validating a message
that carries a nonce field clears the whole used set and resets the
timestamp: the state after validateMessage differs from the state
before. -/
theorem C6_counterexample :
    (MessageFactory.validateMessage cfgDom hDom 11 0 staleNonceManager msgNonce).2 =
      { nonceState := { current := 0, used := [], lastUpdated := 11 }, maxAge := 10 } ∧
    ({ nonceState := { current := 0, used := [], lastUpdated := 11 }, maxAge := 10 } :
        NonceManager) ≠ staleNonceManager := by
  refine ⟨by decide, by decide⟩

/-- C6 amended: validateMessage leaves the Nonce Tracker state
unchanged provided the tracker is fresh at the time of the call (time
since lastUpdated at most maxAge); on a stale tracker the delegated
validateNonce performs the time-boxed reset, clearing the used set and
resetting lastUpdated. The current counter is never modified by
validation. -/
theorem C6_amended_validate_frame (cfg : DomainConfigObj) (h : DomainHeap)
    (nowMs nowSec : Int) (m : NonceManager) (msg : SignableMessage) :
    (nowMs - m.nonceState.lastUpdated ≤ m.maxAge →
      (MessageFactory.validateMessage cfg h nowMs nowSec m msg).2 = m) ∧
    ((MessageFactory.validateMessage cfg h nowMs nowSec m msg).2.nonceState.current =
      m.nonceState.current) := by
  constructor
  · intro hfresh
    cases hnc : nonceCheck nowMs m msg with
    | error err =>
      simp only [MessageFactory.validateMessage, hnc]
    | ok p =>
      obtain ⟨ne, m'⟩ := p
      have hm' : m' = m := nonceCheck_snd_fresh nowMs m msg hfresh ne m' hnc
      cases hd : deadlineCheck nowSec msg with
      | error err =>
        simp only [MessageFactory.validateMessage, hnc, hd]
        exact hm'
      | ok de =>
        simp only [MessageFactory.validateMessage, hnc, hd]
        exact hm'
  · cases hnc : nonceCheck nowMs m msg with
    | error err =>
      simp only [MessageFactory.validateMessage, hnc]
    | ok p =>
      obtain ⟨ne, m'⟩ := p
      have hm' : m'.nonceState.current = m.nonceState.current :=
        nonceCheck_snd_current nowMs m msg ne m' hnc
      cases hd : deadlineCheck nowSec msg with
      | error err =>
        simp only [MessageFactory.validateMessage, hnc, hd]
        exact hm'
      | ok de =>
        simp only [MessageFactory.validateMessage, hnc, hd]
        exact hm'

/-- Witness for C6: on the same manager observed while still fresh
(now = 5 with maxAge 10), validateMessage returns the state unchanged. -/
theorem C6_amended_witness :
    (MessageFactory.validateMessage cfgDom hDom 5 0 staleNonceManager msgNonce).2 =
      staleNonceManager :=
  (C6_amended_validate_frame cfgDom hDom 5 0 staleNonceManager msgNonce).1 (by decide)

/-- C7 counterexample: updateChainId on a one-cell heap allocates no
new descriptor (heap size unchanged) and changes the content of the
cell the existing reference points at — an in-place update of the
stored descriptor, which the claim says never happens. -/
theorem C7_counterexample :
    (DomainConfig.updateChainId cfgDom hDom 5).cells.length = hDom.cells.length ∧
    DomainHeap.read (DomainConfig.updateChainId cfgDom hDom 5) cfgDom.domainRef ≠
      DomainHeap.read hDom cfgDom.domainRef ∧
    DomainHeap.read (DomainConfig.updateChainId cfgDom hDom 5) cfgDom.domainRef =
      { d0 with chainId := 5 } := by
  refine ⟨by decide, by decide, by decide⟩

/-- C7 amended: updateChainId and updateVerifyingContract write the new
field value through the existing reference — the stored descriptor is
mutated in place: no new cell is allocated, the reference is unchanged,
and the cell it points at now holds the updated record (name and
version fields untouched). -/
theorem C7_amended_update_in_place (cfg : DomainConfigObj) (h : DomainHeap)
    (cid : Int) (vc : String) :
    ((DomainConfig.updateChainId cfg h cid).cells.length = h.cells.length ∧
     (DomainConfig.updateVerifyingContract cfg h vc).cells.length = h.cells.length) ∧
    (cfg.domainRef < h.cells.length →
      ((DomainConfig.updateChainId cfg h cid).read cfg.domainRef =
         { h.read cfg.domainRef with chainId := cid } ∧
       (DomainConfig.updateVerifyingContract cfg h vc).read cfg.domainRef =
         { h.read cfg.domainRef with verifyingContract := vc })) := by
  constructor
  · constructor
    · simp [DomainConfig.updateChainId]
    · simp [DomainConfig.updateVerifyingContract]
  · intro hlt
    constructor
    · show (h.cells.set cfg.domainRef _).getD cfg.domainRef _ = _
      rw [List.getD_eq_getElem _ _ (by simpa using hlt), List.getElem_set_self]
    · show (h.cells.set cfg.domainRef _).getD cfg.domainRef _ = _
      rw [List.getD_eq_getElem _ _ (by simpa using hlt), List.getElem_set_self]

/-- Witness for C7 amended: the concrete one-cell heap. -/
theorem C7_amended_witness :
    DomainHeap.read (DomainConfig.updateChainId cfgDom hDom 7) cfgDom.domainRef =
      { d0 with chainId := 7 } :=
  ((C7_amended_update_in_place cfgDom hDom 7 "0xd").2 (by decide)).1

/-- C3 counterexample: a manager configured with threshold 2 and no
connected wallets is below threshold, yet both cited collectSignatures
variants return normally with the empty success list instead of failing
with a ThresholdNotMet error. -/
theorem C3_counterexample :
    MultiSignWalletManager.isThresholdMet [] 2 = false ∧
    MultiSignWalletManager.collectSignatures msg0 [] = Except.ok [] ∧
    useMultiSignWallet.collectSignatures msg0 [] = Except.ok [] := by
  refine ⟨by decide, rfl, rfl⟩

/-- C3 amended: only the WagmiMultiSignStrategy variant enforces the
isThresholdMet precondition: when the connected wallet count is below
the threshold, its collectSignatures fails with the threshold-not-met
error carrying the required and connected counts, and invokes no wallet
(the invocation trace is empty). The MultiSignWalletManager and
useMultiSignWallet variants perform no such check (see the
counterexample). -/
theorem C3_amended_wagmi_precondition (st : WagmiMultiSignState)
    (msg : SignableMessage)
    (hlt : (st.wallets.length : Int) < st.threshold) :
    WagmiMultiSignStrategy.collectSignatures st msg =
      (Except.error (WagmiCollectError.thresholdNotMet st.threshold st.wallets.length), []) := by
  have hnot : ¬ ((st.wallets.length : Int) ≥ st.threshold) := by omega
  unfold WagmiMultiSignStrategy.collectSignatures WagmiMultiSignStrategy.isThresholdMet
  simp [hnot]

/-- Witness for C3 amended: threshold 2, no wallets. -/
theorem C3_amended_witness :
    WagmiMultiSignStrategy.collectSignatures ⟨[], 2⟩ msg0 =
      (Except.error (WagmiCollectError.thresholdNotMet 2 0), []) :=
  C3_amended_wagmi_precondition ⟨[], 2⟩ msg0 (by decide)

/-- C4 counterexample: the MultiSignWalletManager variant of
collectSignatures, with a single wallet that fails, is a configured
signer collection in which every signer failed — yet the call returns
normally with the empty list instead of throwing an error summarizing
the failures. -/
theorem C4_counterexample :
    walletOutcome msg0 failingWallet = Except.error ("w1", "boom") ∧
    MultiSignWalletManager.collectSignatures msg0 [failingWallet] = Except.ok [] := by
  exact ⟨rfl, rfl⟩

/-- The successes accumulated by the hook loop are the per-wallet
successful outcomes, in iteration order. -/
theorem hookLoop_fst (msg : SignableMessage) :
    ∀ ws : List WalletSim,
      (hookLoop msg ws).1 = ws.filterMap fun w => (walletOutcome msg w).toOption := by
  intro ws
  induction ws with
  | nil => rfl
  | cons w ws ih =>
    simp only [hookLoop, List.filterMap_cons]
    cases hw : walletOutcome msg w <;> simp [Except.toOption, ih]

/-- The failures accumulated by the hook loop are the per-wallet error
records, in iteration order. -/
theorem hookLoop_snd (msg : SignableMessage) :
    ∀ ws : List WalletSim,
      (hookLoop msg ws).2 = ws.filterMap fun w => outcomeErr (walletOutcome msg w) := by
  intro ws
  induction ws with
  | nil => rfl
  | cons w ws ih =>
    simp only [hookLoop, List.filterMap_cons]
    cases hw : walletOutcome msg w <;> simp [outcomeErr, ih]

/-- C4 amended: the useMultiSignWallet variant throws exactly when the
configured collection is nonempty and every signer failed, and the
thrown error carries every per-signer failure record; when at least one
signer succeeds it returns, without throwing, exactly the subsequence
of successful entries in signer-iteration order. The
MultiSignWalletManager variant (also cited by the claim) never throws —
it returns the successes even when every signer failed (see the
counterexample). -/
theorem C4_amended_raise_iff_all_fail (msg : SignableMessage) (ws : List WalletSim) :
    ((∃ e, useMultiSignWallet.collectSignatures msg ws = .error e) ↔
      (ws ≠ [] ∧ ∀ w ∈ ws, exceptOk (walletOutcome msg w) = false)) ∧
    (∀ e, useMultiSignWallet.collectSignatures msg ws = .error e →
      e = ws.filterMap fun w => outcomeErr (walletOutcome msg w)) ∧
    ((∃ w ∈ ws, exceptOk (walletOutcome msg w) = true) →
      useMultiSignWallet.collectSignatures msg ws =
        .ok (ws.filterMap fun w => (walletOutcome msg w).toOption)) ∧
    (∃ r, MultiSignWalletManager.collectSignatures msg ws = Except.ok r) := by
  have hS := hookLoop_fst msg ws
  have hE := hookLoop_snd msg ws
  have hfail : ∀ w : WalletSim,
      ((walletOutcome msg w).toOption = none ↔ exceptOk (walletOutcome msg w) = false) := by
    intro w
    cases walletOutcome msg w <;> simp [exceptOk, Except.toOption]
  have herrnone : ∀ w : WalletSim,
      (outcomeErr (walletOutcome msg w) = none ↔ exceptOk (walletOutcome msg w) = true) := by
    intro w
    cases walletOutcome msg w <;> simp [exceptOk, outcomeErr]
  unfold useMultiSignWallet.collectSignatures
  by_cases hcond : (hookLoop msg ws).2 ≠ [] ∧ (hookLoop msg ws).1 = []
  · rw [if_pos hcond]
    obtain ⟨hEne, hSnil⟩ := hcond
    refine ⟨⟨fun _ => ⟨?_, ?_⟩, fun _ => ⟨_, rfl⟩⟩, ?_, ?_, ⟨_, rfl⟩⟩
    · intro hws
      apply hEne
      rw [hE, hws]
      rfl
    · intro w hw
      rw [hS] at hSnil
      exact (hfail w).mp (List.filterMap_eq_nil_iff.mp hSnil w hw)
    · intro e he
      have : (hookLoop msg ws).2 = e := by
        injection he
      rw [← this, hE]
    · rintro ⟨w, hw, hok⟩
      exfalso
      rw [hS] at hSnil
      have := (hfail w).mp (List.filterMap_eq_nil_iff.mp hSnil w hw)
      rw [hok] at this
      cases this
  · rw [if_neg hcond]
    refine ⟨⟨?_, ?_⟩, ?_, ?_, ⟨_, rfl⟩⟩
    · rintro ⟨e, he⟩
      cases he
    · rintro ⟨hne, hall⟩
      exfalso
      apply hcond
      refine ⟨?_, ?_⟩
      · intro hEnil
        rw [hE] at hEnil
        obtain ⟨w0, hw0⟩ := List.exists_mem_of_ne_nil ws hne
        have h2 := (herrnone w0).mp (List.filterMap_eq_nil_iff.mp hEnil w0 hw0)
        rw [hall w0 hw0] at h2
        cases h2
      · rw [hS]
        exact List.filterMap_eq_nil_iff.mpr fun w hw => (hfail w).mpr (hall w hw)
    · intro e he
      cases he
    · intro _
      rw [hS]

/-- Witness for C4 amended: one succeeding and one failing wallet — no
throw, and the result is exactly the single success. -/
theorem C4_amended_witness :
    useMultiSignWallet.collectSignatures msg0 [okWallet, failingWallet] =
      Except.ok [⟨"w2", "0xab", "sigA"⟩] := by
  have h := (C4_amended_raise_iff_all_fail msg0 [okWallet, failingWallet]).2.2.1
    ⟨okWallet, by simp, rfl⟩
  rw [h]
  rfl

/-- C9: for every operation, the message produced by createMessage
serializes every integer-valued field (nonce, deadline, amount, price)
as the decimal string of the underlying bigint — the entry in the field
map is a string value, never a native number. -/
theorem C9_integer_fields_decimal (cfg : DomainConfigObj) (h : DomainHeap)
    (op : SignableOperation) :
    ((MessageFactory.createMessage cfg h op).message.lookup "nonce" =
       some (FieldValue.vstr (toString op.nonce))) ∧
    ((MessageFactory.createMessage cfg h op).message.lookup "deadline" =
       some (FieldValue.vstr (toString op.deadline))) ∧
    (∀ k v, (k, v) ∈ (MessageFactory.createMessage cfg h op).message →
       k ∈ integerFields → ∃ i : Int, v = FieldValue.vstr (toString i)) := by
  cases op <;>
    refine ⟨rfl, rfl, ?_⟩ <;>
    intro k v hkv hk <;>
    simp only [integerFields, List.mem_cons, List.not_mem_nil, or_false] at hk <;>
    simp only [MessageFactory.createMessage, MessageFactory.serializeOperation,
      List.mem_cons, List.not_mem_nil, or_false, Prod.mk.injEq] at hkv <;>
    rcases hk with rfl | rfl | rfl | rfl <;>
    simp at hkv <;>
    exact ⟨_, hkv⟩

/-- Witness for C9: the amount entry of a concrete deposit message is
the decimal string "3". -/
theorem C9_witness :
    ∃ i : Int, FieldValue.vstr "3" = FieldValue.vstr (toString i) :=
  (C9_integer_fields_decimal cfgDom hDom
      (SignableOperation.deposit 1 2 "o" 3 "t")).2.2
    "amount" (FieldValue.vstr "3") (by decide) (by decide)
